import Mathlib

set_option maxHeartbeats 1000000

/-!
Verification development for the batch execution engine of AIpomoea
(`src/tools/factory.py`).  Each Python routine relevant to the checked
properties is embedded as an executable Lean definition translated from the
source; machine behaviour (slicing, `range`, `str.split`, `str.strip`,
`os.path.basename`, `os.path.splitext`, dictionary upsert into SQLite) is
modelled explicitly.
-/

/-- Python `range(start, stop, step)` for a non-negative step.  A step of `0`
raises `ValueError` in Python; every call site modelled here uses a positive
step, so that case is mapped to the empty list and never relied upon. -/
def pyRange (start stop step : Nat) : List Nat :=
  if step = 0 then []
  else (List.range ((stop - start + step - 1) / step)).map (fun k => start + k * step)

/-- Python list slice `l[start : start + len]` (clipped at the end of the list). -/
def pySlice (l : List α) (start len : Nat) : List α :=
  (l.drop start).take len

/-- `Factory.__init__` (factory.py line 698): `self.batch_size = 50`. -/
def factory_batch_size : Nat := 50

/-- The sub-batches invoked by the halving-retry loop of `_execute_command`
(factory.py lines 1327-1328 and 1349-1350): for a failed batch starting at
index `i` with batch size `B`, the code runs
`for j in range(i, i + B, B // 2): retry_batch = image_paths[j : j + B // 2]`. -/
def retry_batches (image_paths : List α) (i B : Nat) : List (List α) :=
  (pyRange i (i + B) (B / 2)).map (fun j => pySlice image_paths j (B / 2))

/-- Does `pat` occur at the head of `l`?  (Used to model how Python's
`str.split(sep)` scans for the next occurrence of the separator.) -/
def leadsWith : List Char → List Char → Bool
  | [], _ => true
  | _ :: _, [] => false
  | p :: ps, c :: cs => p == c && leadsWith ps cs

/-- Worker for `pySplit`, structurally recursive on a fuel argument (the fuel
passed by `pySplit` always suffices because the separators used in factory.py
are non-empty, so each step consumes at least one character). -/
def pySplitGo (sep : List Char) : Nat → List Char → List Char → List (List Char)
  | 0, l, acc => [acc.reverse ++ l]
  | _ + 1, [], acc => [acc.reverse]
  | fuel + 1, c :: rest, acc =>
      if leadsWith sep (c :: rest) then
        acc.reverse :: pySplitGo sep fuel (List.drop sep.length (c :: rest)) []
      else
        pySplitGo sep fuel rest (c :: acc)

/-- Python `s.split(sep)` for a non-empty separator: left-to-right,
non-overlapping, keeping empty parts. -/
def pySplit (sep l : List Char) : List (List Char) :=
  pySplitGo sep (l.length + 1) l []

/-- Python `s.strip(chars)`: remove leading and trailing characters drawn from
the set `chars`. -/
def pyStrip (chars l : List Char) : List Char :=
  ((l.dropWhile (fun c => chars.contains c)).reverse.dropWhile
    (fun c => chars.contains c)).reverse

/-- Python `os.path.basename`: the part of the path after the last path
separator (factory.py runs the bundled `.exe` models on Windows, where both
`/` and `\` separate components). -/
def pyBasename (l : List Char) : List Char :=
  (l.reverse.takeWhile (fun c => !(c == '/' || c == '\\'))).reverse

/-- The stem computed by Python `os.path.splitext(p)[0]` applied to a plain
basename: cut at the last `.`, unless every character before that `.` is
itself a `.` (so `.bashrc`-style names keep their dot). -/
def pySplitextStem (l : List Char) : List Char :=
  let after_dot := l.reverse.takeWhile (fun c => !(c == '.'))
  if after_dot.length = l.length then l
  else
    let stem := l.take (l.length - after_dot.length - 1)
    if stem.any (fun c => !(c == '.')) then stem else l

/-- The ASCII whitespace characters stripped by Python's no-argument
`str.strip()`. -/
def whitespace_chars : List Char := [' ', '\t', '\n', '\r', '\x0b', '\x0c']

/-- The character set of `.strip(" -")` in `_process_results`. -/
def space_dash_chars : List Char := [' ', '-']

/-- The literal separator `" Result: "` of `_process_results`. -/
def result_separator : List Char := (" Result: ").toList

/-- The literal separator `": "` used on the left part in `_process_results`. -/
def colon_separator : List Char := (": ").toList

/-- One iteration of the line loop of `_process_results` (factory.py lines
1268-1274):

    parts = line.split(" Result: ")
    if len(parts) == 2:
        image_filename = os.path.basename(parts[0].split(": ")[1]).strip(" -")
        image_filename = os.path.splitext(image_filename)[0]
        result_values = parts[1].replace('*', '').strip()
        results.append((image_filename, command, result_values))

`Except.ok (some r)` is an appended record, `Except.ok none` is a skipped
line, and `Except.error ()` is the `IndexError` raised by
`parts[0].split(": ")[1]` when the left part has no `": "`. -/
def process_result_line (command line : String) :
    Except Unit (Option (String × String × String)) :=
  match pySplit result_separator line.toList with
  | [left, right] =>
      match pySplit colon_separator left with
      | _ :: second :: _ =>
          let base := pyStrip space_dash_chars (pyBasename second)
          let image_filename := pySplitextStem base
          let result_values := pyStrip whitespace_chars (right.filter (fun c => !(c == '*')))
          Except.ok (some (String.mk image_filename, command, String.mk result_values))
      | _ => Except.error ()
  | _ => Except.ok none

/-- An element of the result list built by `_execute_command`: either a
parsed `(image_filename, command, result_values)` triple or the one-element
error tuple appended when a retry sub-batch fails (factory.py lines
1359-1361). -/
inductive Entry where
  | record (image_filename command result_values : String)
  | err (msg : String)
deriving DecidableEq, Repr

/-- The Python exception that escapes `_execute_command`: referencing the
local `results` at `return results` (line 1367) when the body raised before
`results = []` (line 1310) was executed. -/
inductive PyErr where
  | unboundLocal
deriving DecidableEq, Repr

/-- `_process_results` (factory.py lines 1267-1277): fold the line parser over
the subprocess output; a raising line discards the whole call's records and
propagates the exception. -/
def process_results (command : String) (result_lines : List String) :
    Except Unit (List Entry) :=
  result_lines.foldlM
    (fun acc line =>
      match process_result_line command line with
      | Except.error e => Except.error e
      | Except.ok none => Except.ok acc
      | Except.ok (some r) => Except.ok (acc ++ [Entry.record r.1 r.2.1 r.2.2]))
    []

/-- Python truthiness of a string (`if not s` / `if s`). -/
def pyTruthyString (s : String) : Bool := !(s == "")

/-- `os.path.join` of a directory and a file name (the directory produced by
`Path(...).resolve()` never ends in a separator, so `join` inserts one). -/
def pyJoin (dir file : String) : String := dir ++ "/" ++ file

/-- `_get_binary_path` (factory.py lines 1199-1227).  The Python condition
`if command == 'root_color' or 'root_advanced_color':` evaluates the literal
`'root_advanced_color'` for truthiness, so it is true for every command; the
`" --whitebg "` flag is then appended to the path string whenever the
`white_background` spec is truthy.  The function builds and returns the path
string unconditionally (it never returns `None`). -/
def get_binary_path (models_path : String) (white_background : Bool)
    (command : String) : Option String :=
  let condition := (command == "root_color") || pyTruthyString "root_advanced_color"
  let additional_parameter := if condition && white_background then " --whitebg " else ""
  some (pyJoin models_path (command ++ ".exe") ++ additional_parameter)

/-- Environment of one `_execute_command` call: whether `load_config()`
succeeds, the loaded `FORCE_MAXPERFORMANCE` flag, the resolved model folder,
the `white_background` spec, the image list, `self.batch_size`, and a
deterministic oracle giving each `_run_subprocess` invocation's outcome
(`Except.error` = `subprocess.CalledProcessError` / spawn failure). -/
structure ExecEnv where
  configLoads : Bool
  forceMaxPerformance : Bool
  modelsPath : String
  whiteBackground : Bool
  imagePaths : List String
  batchSize : Nat
  run : List String → Except Unit (List String)

/-- One batch attempt: `_run_subprocess` followed by `_process_results`
(factory.py lines 1343-1344); either step raising makes the batch fail. -/
def attempt_batch (env : ExecEnv) (command : String) (batch : List String) :
    Except Unit (List Entry) :=
  match env.run batch with
  | Except.error e => Except.error e
  | Except.ok lines => process_results command lines

/-- The sequential retry loop for a failed batch starting at index `i`
(factory.py lines 1349-1361): each retry sub-batch is attempted; a failing
sub-batch appends a one-element error tuple and the loop continues. -/
def retry_failed_batch (env : ExecEnv) (command : String) (i : Nat) : List Entry :=
  (retry_batches env.imagePaths i env.batchSize).foldl
    (fun acc rb =>
      match attempt_batch env command rb with
      | Except.ok es => acc ++ es
      | Except.error _ =>
          acc ++ [Entry.err "FBIN2_P - Error while retrying smaller batch"])
    []

/-- The sequential (non-max-performance) branch of `_execute_command`
(factory.py lines 1338-1361): batches of `batch_size` in order; a failed batch
is re-attempted through the halving retry. -/
def execute_batches_sequential (env : ExecEnv) (command : String) : List Entry :=
  (pyRange 0 env.imagePaths.length env.batchSize).foldl
    (fun acc i =>
      match attempt_batch env command (pySlice env.imagePaths i env.batchSize) with
      | Except.ok es => acc ++ es
      | Except.error _ => acc ++ retry_failed_batch env command i)
    []

/-- The max-performance retry loop (factory.py lines 1327-1336): like the
sequential one, but a failing sub-batch raises `RuntimeError` (`FBIN2_P`),
abandoning the remaining sub-batches; the Bool flags that abort. -/
def retry_failed_batch_maxperf (env : ExecEnv) (command : String) (i : Nat) :
    List Entry × Bool :=
  (retry_batches env.imagePaths i env.batchSize).foldl
    (fun st rb =>
      if st.2 then st
      else
        match attempt_batch env command rb with
        | Except.ok es => (st.1 ++ es, false)
        | Except.error _ => (st.1, true))
    ([], false)

/-- Worker for the max-performance branch (factory.py lines 1316-1336),
processing batch start indices in submission order (completion order of the
thread pool is nondeterministic in the source but affects only list order).
A `RuntimeError` from the retry loop is caught by the outer
`except Exception` of `_execute_command`, which returns the results gathered
so far. -/
def execute_batches_maxperf_go (env : ExecEnv) (command : String) :
    List Nat → List Entry → List Entry
  | [], acc => acc
  | i :: rest, acc =>
      match attempt_batch env command (pySlice env.imagePaths i env.batchSize) with
      | Except.ok es => execute_batches_maxperf_go env command rest (acc ++ es)
      | Except.error _ =>
          match retry_failed_batch_maxperf env command i with
          | (es, false) => execute_batches_maxperf_go env command rest (acc ++ es)
          | (es, true) => acc ++ es

/-- The max-performance branch of `_execute_command`. -/
def execute_batches_maxperf (env : ExecEnv) (command : String) : List Entry :=
  execute_batches_maxperf_go env command
    (pyRange 0 env.imagePaths.length env.batchSize) []

/-- `_execute_command` (factory.py lines 1279-1367).  When `load_config()`
raises (line 1302), the outer `except Exception` (line 1363) swallows the
exception and control falls through to `return results` (line 1367); but the
local `results` is only assigned at line 1310, after `load_config`, so that
`return` raises `UnboundLocalError`, which propagates out of the worker. -/
def execute_command (env : ExecEnv) (command : String) : Except PyErr (List Entry) :=
  if !env.configLoads then Except.error PyErr.unboundLocal
  else
    match get_binary_path env.modelsPath env.whiteBackground command with
    | none => Except.ok [Entry.err ("FBIN3_P Model " ++ command ++ " not found.")]
    | some binary_path =>
        if !pyTruthyString binary_path then
          Except.ok [Entry.err ("FBIN3_P Model " ++ command ++ " not found.")]
        else if env.forceMaxPerformance then
          Except.ok (execute_batches_maxperf env command)
        else
          Except.ok (execute_batches_sequential env command)

/-- The dispatch-and-flatten part of `execute_recipes_parallel` (factory.py
lines 1404-1436): `pool.map(self._execute_command, self.true_commands)`
re-raises any worker exception, in which case the function returns the
exception (line 1418) and `export_results` is never reached; otherwise the
per-command lists are flattened and exported.  `some records` therefore means
"`export_results records` is invoked", `none` means the run aborts without
exporting. -/
def execute_recipes_parallel_results (env : ExecEnv) (true_commands : List String) :
    Option (List Entry) :=
  match true_commands.mapM (execute_command env) with
  | Except.error _ => none
  | Except.ok rss => some rss.flatten

/-- Worker for the sequential fallback `execute_recipe` (factory.py lines
1139-1197): each enabled command's binary is run over the full image list; an
exception from any command propagates to the `except` at line 1191 and aborts
the loop with the results gathered so far. -/
def execute_recipe_go (env : ExecEnv) : List String → List Entry → List Entry
  | [], acc => acc
  | command :: rest, acc =>
      match attempt_batch env command env.imagePaths with
      | Except.error _ => acc
      | Except.ok es => execute_recipe_go env rest (acc ++ es)

/-- `execute_recipe`'s user-visible outcome: thanks to the `finally` block at
line 1194, `export_results` is always invoked on whatever was gathered, so
the export attempt is unconditionally `some`. -/
def execute_recipe_exported (env : ExecEnv) (commands : List String) :
    Option (List Entry) :=
  some (execute_recipe_go env commands [])

/-- An `ExecEnv` in which `load_config()` raises (for example because
`config.json` has been corrupted between `Factory.__init__`, which only
checks that the file exists, and the worker's own `load_config()` call). -/
def config_fail_env : ExecEnv where
  configLoads := false
  forceMaxPerformance := false
  modelsPath := "models"
  whiteBackground := false
  imagePaths := ["uploads/a_1.png", "uploads/b_1.png"]
  batchSize := factory_batch_size
  run := fun _ => Except.ok []

/-- A second config-failure environment, used for the export-attempt claim:
its batch oracle would produce a well-formed record, but the record is never
gathered because the worker raises first. -/
def config_fail_env_export : ExecEnv where
  configLoads := false
  forceMaxPerformance := false
  modelsPath := "models"
  whiteBackground := false
  imagePaths := ["uploads/x_1.png"]
  batchSize := factory_batch_size
  run := fun _ => Except.ok ["cmd: uploads/x_1.png - Result: 1"]

/-- Dictionary-row lookup: the value stored for column `c`, `none` meaning
SQL NULL / absent. -/
def lookup_cell : List (String × String) → String → Option String
  | [], _ => none
  | p :: rest, c => if p.1 = c then some p.2 else lookup_cell rest c

/-- SQL `UPDATE ... SET c = v ...` effect on one row for one column. -/
def set_cell (r : List (String × String)) (c v : String) : List (String × String) :=
  if r.any (fun p => p.1 = c) then r.map (fun p => if p.1 = c then (p.1, v) else p)
  else r ++ [(c, v)]

/-- The `UPDATE` statement of `export_connecteddb` (factory.py lines
1061-1063): set every DataFrame column except `image` to the DataFrame row's
value. -/
def update_row (r0 row : List (String × String)) : List (String × String) :=
  (row.filter (fun p => !(p.1 = "image" : Bool))).foldl
    (fun acc p => set_cell acc p.1 p.2) r0

/-- The configured SQLite table: its column list and its rows (each row a
column-to-value dictionary; missing columns are NULL). -/
structure DbTable where
  cols : List String
  rows : List (List (String × String))
deriving DecidableEq, Repr

/-- The per-DataFrame-row body of `export_connecteddb` (factory.py lines
1054-1068): `SELECT 1 ... WHERE image = ?`; on a hit, `UPDATE` every matching
row's non-`image` columns; on a miss, `INSERT` the DataFrame row. -/
def upsert_row (t : DbTable) (row : List (String × String)) : DbTable :=
  let image_name := (lookup_cell row "image").getD ""
  if t.rows.any (fun r => lookup_cell r "image" = some image_name) then
    ⟨t.cols, t.rows.map (fun r =>
      if lookup_cell r "image" = some image_name then update_row r row else r)⟩
  else ⟨t.cols, t.rows ++ [row]⟩

/-- The column-evolution loop of `export_connecteddb` (factory.py lines
1042-1048): `ALTER TABLE ... ADD COLUMN col TEXT` for every DataFrame column
missing from the fetched `PRAGMA table_info` list. -/
def add_missing_columns (t : DbTable) (df_cols : List String) : DbTable :=
  ⟨t.cols ++ df_cols.filter (fun c => !(t.cols.contains c)), t.rows⟩

/-- `export_connecteddb` (factory.py lines 1028-1074): add missing columns,
then upsert each DataFrame row in order. -/
def export_connecteddb (t : DbTable) (df_cols : List String)
    (df_rows : List (List (String × String))) : DbTable :=
  df_rows.foldl upsert_row (add_missing_columns t df_cols)

/-- Number of table rows whose `image` column holds `image_name`. -/
def count_image_rows (t : DbTable) (image_name : String) : Nat :=
  t.rows.countP (fun r => lookup_cell r "image" = some image_name)

/-- The wait intervals claimed by the spec: `1, 2, 4, 8, 16, 16, 16, ...`
(doubling from one second, capped at sixteen). -/
def wait_times (n : Nat) : List Nat :=
  (List.range n).map (fun k => min (2 ^ k) 16)

/-- The image-copy wait loop of `execute_recipes_parallel` (factory.py lines
1382-1392), run for `fuel` iterations with `observed t` the file count seen
at the `t`-th check: `some ()` means the loop exited (count reached),
`none` means it is still polling after `fuel` iterations.  The loop sleeps
`w` seconds each iteration and then sets `w := min (w * 2) 16`. -/
def wait_loop_go (observed : Nat → Nat) (expected : Nat) :
    Nat → Nat → Nat → Option Unit
  | _, _, 0 => none
  | w, t, fuel + 1 =>
      if observed t < expected then
        wait_loop_go observed expected (min (w * 2) 16) (t + 1) fuel
      else some ()

/-- The wait loop started with `wait_time = 1` at the first check. -/
def wait_loop (observed : Nat → Nat) (expected fuel : Nat) : Option Unit :=
  wait_loop_go observed expected 1 0 fuel

/-- The successive sleep durations performed by the wait loop during its
first `n` iterations (empty tail once the loop has exited). -/
def wait_sleeps_go (observed : Nat → Nat) (expected : Nat) :
    Nat → Nat → Nat → List Nat
  | _, _, 0 => []
  | w, t, n + 1 =>
      if observed t < expected then
        w :: wait_sleeps_go observed expected (min (w * 2) 16) (t + 1) n
      else []

/-- Sleep durations of the wait loop started with `wait_time = 1`. -/
def wait_sleeps (observed : Nat → Nat) (expected n : Nat) : List Nat :=
  wait_sleeps_go observed expected 1 0 n

/-- The flat `(image, model, result)` rows built by `_export_to_formats`
(factory.py lines 527-532): entries whose data is not a dict (`none` here)
are reported and skipped. -/
def build_rows (results_data : List (String × Option (List (String × String)))) :
    List (String × String × String) :=
  (results_data.map (fun p =>
    match p.2 with
    | some data => data.map (fun mr => (p.1, mr.1, mr.2))
    | none => [])).flatten

/-- `_export_to_csv` / `_export_to_json` (factory.py lines 570-598): the body
is wrapped in `try/except Exception` that only prints, so a failing write
(the argument) never propagates. -/
def export_method_swallow (write_outcome : Except Unit Unit) : Except Unit Unit :=
  match write_outcome with
  | Except.ok _ => Except.ok ()
  | Except.error _ => Except.ok ()

/-- `getattr(self, f"_export_to_{format_name}", None)` (factory.py line 548):
only `csv` and `json` have methods on `ResultsExporter`; other enabled
formats get `None` and are skipped with a diagnostic. -/
def lookup_export_method (csv_write json_write : Except Unit Unit)
    (format_name : String) : Option (Except Unit Unit) :=
  if format_name = "csv" then some (export_method_swallow csv_write)
  else if format_name = "json" then some (export_method_swallow json_write)
  else none

/-- The body of the format loop of `_export_to_formats` (factory.py lines
546-556): skip disabled formats, skip formats without an export method
(`REXFOR6`), invoke the method otherwise, and re-raise (`REXFOR2`, line 554)
if the method raises.  `attempted` accumulates the formats whose export
method was actually invoked. -/
def export_format_step (csv_write json_write : Except Unit Unit)
    (attempted : List String) (fb : String × Bool) : Except Unit (List String) :=
  if fb.2 then
    match lookup_export_method csv_write json_write fb.1 with
    | some outcome =>
        match outcome with
        | Except.ok _ => Except.ok (attempted ++ [fb.1])
        | Except.error e => Except.error e
    | none => Except.ok attempted
  else Except.ok attempted

/-- `_export_to_formats` (factory.py lines 511-568): build the rows, raise
`ValueError` when there is nothing to pivot, then run the format loop.  The
result is the list of format names whose export method was invoked. -/
def export_to_formats (formats : List (String × Bool))
    (csv_write json_write : Except Unit Unit)
    (results_data : List (String × Option (List (String × String)))) :
    Except Unit (List String) :=
  if (build_rows results_data).isEmpty then Except.error ()
  else formats.foldlM (export_format_step csv_write json_write) []

/-- One split step of `re.split(r'[_-]', s)`: split at every `_` or `-`. -/
def split_delims_go : List Char → List Char → List (List Char)
  | [], acc => [acc.reverse]
  | c :: rest, acc =>
      if c = '_' ∨ c = '-' then acc.reverse :: split_delims_go rest []
      else split_delims_go rest (c :: acc)

/-- `re.split(r'[_-]', s)` as used on naming conventions (factory.py line
903) and on image names (line 490). -/
def split_delimiters (s : String) : List String :=
  (split_delims_go s.toList []).map String.mk

/-- `load_export_separation` (factory.py lines 878-918): `Except.ok none`
models the `return False` for an unset / `'Nenhum'` separating factor,
`Except.ok (some p)` the 1-based `index + 1` result, and `Except.error ()`
the `ValueError`s `FLES2` (no naming convention) and `FLES3` (factor not a
token of the convention). -/
def load_export_separation (separating_factor naming_convention : Option String) :
    Except Unit (Option Nat) :=
  match separating_factor with
  | none => Except.ok none
  | some sf =>
      if sf = "" ∨ sf = "Nenhum" then Except.ok none
      else
        match naming_convention with
        | none => Except.error ()
        | some nc =>
            if nc = "" then Except.error ()
            else
              let parts := split_delimiters nc
              if parts.contains sf then Except.ok (some (parts.indexOf sf + 1))
              else Except.error ()

/-- Python dict assignment `d[k] = v` on an association list. -/
def insert_or_replace (l : List (String × α)) (k : String) (v : α) :
    List (String × α) :=
  if l.any (fun p => p.1 = k) then
    l.map (fun p => if p.1 = k then (p.1, v) else p)
  else l ++ [(k, v)]

/-- `separated_results[base_name][image] = data` with on-demand creation of
the group dict (factory.py lines 492-495). -/
def add_to_group (acc : List (String × List (String × α))) (base img : String)
    (d : α) : List (String × List (String × α)) :=
  if acc.any (fun g => g.1 = base) then
    acc.map (fun g => if g.1 = base then (g.1, insert_or_replace g.2 img d) else g)
  else acc ++ [(base, [(img, d)])]

/-- One iteration of `_group_results_by_position` (factory.py lines 488-497):
split the image name, and place it in the group named by the token at
`position` when there are enough tokens, otherwise skip it with the `GRBB2`
diagnostic. -/
def group_step (position : Nat) (acc : List (String × List (String × α)))
    (e : String × α) : List (String × List (String × α)) :=
  if position < (split_delimiters e.1).length then
    add_to_group acc ((split_delimiters e.1).getD position "") e.1 e.2
  else acc

/-- `_group_results_by_position` (factory.py lines 469-509). -/
def group_results_by_position (results_dict : List (String × α)) (position : Nat) :
    List (String × List (String × α)) :=
  results_dict.foldl (group_step position) []

/-- The image `img` appears (as a row key) in some group of `groups`. -/
def image_in_groups (groups : List (String × List (String × α))) (img : String) :
    Prop :=
  ∃ g, g ∈ groups ∧ ∃ p, p ∈ g.2 ∧ p.1 = img

/-- For an even positive batch size the retry loop enumerates exactly the two
half-size start indices of the failed batch. -/
theorem pyRange_halving (i B H : Nat) (hB : H * 2 = B) (hH : 0 < H) :
    pyRange i (i + B) H = [i, i + H] := by
  unfold pyRange
  rw [if_neg (by omega)]
  have hcount : (i + B - i + H - 1) / H = 2 := by
    have h1 : i + B - i + H - 1 = (H - 1) + 2 * H := by omega
    rw [h1, Nat.add_mul_div_right _ _ hH, Nat.div_eq_of_lt (by omega)]
  rw [hcount]
  show [i + 0 * H, i + 1 * H] = [i, i + H]
  simp

/-- C1: when a batch invocation over the index range `[i, i + B)` fails, the
halving retry invokes the binary on sub-batches of half the size whose
concatenation is exactly the failed batch slice — every image of the failed
batch in exactly one sub-batch, no outside image re-invoked, none dropped.
(The hypotheses hold for the configured `batch_size = 50`.) -/
theorem retry_batches_cover (image_paths : List α) (i B : Nat)
    (heven : B % 2 = 0) (hpos : 0 < B) :
    (retry_batches image_paths i B).flatten = pySlice image_paths i B := by
  have hdvd : 2 ∣ B := Nat.dvd_of_mod_eq_zero heven
  have hB : B / 2 * 2 = B := Nat.div_mul_cancel hdvd
  have hH : 0 < B / 2 := by omega
  unfold retry_batches
  rw [pyRange_halving i B (B / 2) hB hH]
  simp only [List.map_cons, List.map_nil, List.flatten_cons, List.flatten_nil,
    List.append_nil]
  unfold pySlice
  have h2 : List.drop (i + B / 2) image_paths =
      List.drop (B / 2) (List.drop i image_paths) := by
    rw [List.drop_drop]
  have h3 : B / 2 + B / 2 = B := by omega
  rw [h2, ← List.take_add, h3]

/-- Witness for C1 at the configured batch size 50 and a concrete image set. -/
theorem retry_batches_cover_witness :
    50 % 2 = 0 ∧ 0 < 50 ∧
      (retry_batches (List.range 100) 0 50).flatten = pySlice (List.range 100) 0 50 :=
  ⟨by decide, by decide, retry_batches_cover (List.range 100) 0 50 (by decide) (by decide)⟩

/-- C2 (failing input evaluated): with 60 images and the configured
`batch_size = 50`, a failure of the final batch (start index 50, ten images,
nonempty) makes the retry loop compute the sub-batch
`image_paths[75:100] = []` and invoke the binary on that empty image list —
the code performs a zero-size invocation instead of treating it as an
error. -/
theorem retry_batches_zero_size_invocation :
    [] ∈ retry_batches (List.range 60) 50 factory_batch_size ∧
      pySlice (List.range 60) 50 factory_batch_size ≠ [] := by decide

/-- C3 (counterexample): the line `"x Result: y"` contains `" Result: "`
exactly once but its left part has no `": "`-delimited field; instead of
being silently skipped it raises (`IndexError` from
`parts[0].split(": ")[1]`), refuting "no malformed line ever raises". -/
theorem process_result_line_raises :
    process_result_line "angle" "x Result: y" = Except.error () := rfl

/-- C3 (amended): the per-line parser is a pure function; a line not split by
`" Result: "` into exactly two parts always yields no record, a two-part line
whose left part lacks `": "` raises `IndexError` (propagating as a batch
failure), and a two-part line whose left part has a `": "` field always
yields exactly one record for the given command. -/
theorem process_result_line_cases (command line : String) :
    ((pySplit result_separator line.toList).length ≠ 2 →
      process_result_line command line = Except.ok none) ∧
    ((pySplit result_separator line.toList).length = 2 →
      (pySplit colon_separator
          ((pySplit result_separator line.toList).getD 0 [])).length ≤ 1 →
      process_result_line command line = Except.error ()) ∧
    ((pySplit result_separator line.toList).length = 2 →
      2 ≤ (pySplit colon_separator
          ((pySplit result_separator line.toList).getD 0 [])).length →
      ∃ img v, process_result_line command line = Except.ok (some (img, command, v))) := by
  rcases hps : pySplit result_separator line.toList with _ | ⟨left, _ | ⟨right, _ | ⟨x, xs⟩⟩⟩
  · refine ⟨fun _ => ?_, fun h2 _ => absurd h2 (by simp), fun h2 _ => absurd h2 (by simp)⟩
    simp only [process_result_line, hps]
  · refine ⟨fun _ => ?_, fun h2 _ => absurd h2 (by simp), fun h2 _ => absurd h2 (by simp)⟩
    simp only [process_result_line, hps]
  · refine ⟨fun hne => absurd rfl hne, fun _ hcol => ?_, fun _ hcol => ?_⟩
    · rcases hcs : pySplit colon_separator left with _ | ⟨a, _ | ⟨b, bs⟩⟩
      · simp only [process_result_line, hps, hcs]
      · simp only [process_result_line, hps, hcs]
      · rw [List.getD_cons_zero, hcs] at hcol
        simp at hcol
    · rcases hcs : pySplit colon_separator left with _ | ⟨a, _ | ⟨b, bs⟩⟩
      · rw [List.getD_cons_zero, hcs] at hcol
        simp at hcol
      · rw [List.getD_cons_zero, hcs] at hcol
        simp at hcol
      · exact ⟨String.mk (pySplitextStem (pyStrip space_dash_chars (pyBasename b))),
          String.mk (pyStrip whitespace_chars (right.filter (fun c => !(c == '*')))),
          by simp only [process_result_line, hps, hcs]⟩
  · refine ⟨fun _ => ?_, fun h2 _ => absurd h2 (by simp), fun h2 _ => absurd h2 (by simp)⟩
    simp only [process_result_line, hps]

/-- Witness for C3's amended theorem: a separator-free line is skipped, and a
well-formed line yields exactly one record. -/
theorem process_result_line_cases_witness :
    process_result_line "angle" "incidental log line" = Except.ok none ∧
      (∃ img v, process_result_line "angle" "cmd: C:/a/b_1.png - Result: *0.9*" =
        Except.ok (some (img, "angle", v))) :=
  ⟨(process_result_line_cases "angle" "incidental log line").1 (by decide),
   (process_result_line_cases "angle" "cmd: C:/a/b_1.png - Result: *0.9*").2.2
      (by decide) (by decide)⟩

/-- C4 (failing input evaluated): when `load_config()` raises inside a
worker, `_execute_command` does not return a labeled error record — it raises
`UnboundLocalError` (the outer `except` falls through to `return results`
with `results` never assigned), `pool.map` re-raises it, and
`execute_recipes_parallel` returns the exception without flattening or
exporting: the sibling enabled command is aborted as well. -/
theorem config_failure_aborts_siblings :
    execute_command config_fail_env "angle" = Except.error PyErr.unboundLocal ∧
      execute_recipes_parallel_results config_fail_env ["angle", "area"] = none :=
  ⟨rfl, rfl⟩

/-- C5 (failing input evaluated): the sequential path always reaches
`export_results` (the `finally` block), but in the parallel path a worker
exception makes `execute_recipes_parallel` return before `export_results`:
no export is attempted at all, not even of an empty record list. -/
theorem parallel_export_not_attempted :
    (∀ (env : ExecEnv) (commands : List String),
      ∃ gathered, execute_recipe_exported env commands = some gathered) ∧
      execute_recipes_parallel_results config_fail_env_export ["root_color"] = none :=
  ⟨fun env commands => ⟨execute_recipe_go env commands [], rfl⟩, rfl⟩

/-- C10: `_get_binary_path` never returns `None`; because the condition
`command == 'root_color' or 'root_advanced_color'` is always truthy, the
`" --whitebg "` flag is concatenated onto the path string for every command
whenever `white_background` is truthy, and the bare
`<models_path>/<command>.exe` string is returned otherwise. -/
theorem get_binary_path_total_whitebg (models_path command : String) :
    (∀ wb, (get_binary_path models_path wb command).isSome) ∧
      get_binary_path models_path true command =
        some (pyJoin models_path (command ++ ".exe") ++ " --whitebg ") ∧
      get_binary_path models_path false command =
        some (pyJoin models_path (command ++ ".exe")) := by
  refine ⟨fun wb => rfl, ?_, ?_⟩
  · simp [get_binary_path, pyTruthyString]
  · simp only [get_binary_path, pyTruthyString, Bool.and_false, if_neg Bool.false_ne_true]
    rw [String.append_empty]

/-- If the observed file count never reaches the expected count, the wait
loop never exits, whatever its starting state. -/
theorem wait_loop_go_never_exits (observed : Nat → Nat) (expected : Nat)
    (hobs : ∀ t, observed t < expected) :
    ∀ fuel w t, wait_loop_go observed expected w t fuel = none := by
  intro fuel
  induction fuel with
  | zero => intro w t; rfl
  | succ n ih =>
      intro w t
      simp only [wait_loop_go, if_pos (hobs t)]
      exact ih _ _

/-- One doubling-and-capping step of the wait time. -/
theorem wait_time_step (t : Nat) :
    min (min (2 ^ t) 16 * 2) 16 = min (2 ^ (t + 1)) 16 := by
  have h : 2 ^ (t + 1) = 2 ^ t * 2 := pow_succ 2 t
  omega

/-- The sleep durations of the never-satisfied wait loop, started at an
arbitrary step `t`, follow the capped doubling pattern. -/
theorem wait_sleeps_go_pattern :
    ∀ (n t : Nat),
      wait_sleeps_go (fun _ => 7) 10 (min (2 ^ t) 16) t n =
        (List.range n).map (fun k => min (2 ^ (t + k)) 16) := by
  intro n
  induction n with
  | zero => intro t; rfl
  | succ m ih =>
      intro t
      simp only [wait_sleeps_go, if_pos (by omega : (7 : Nat) < 10)]
      rw [wait_time_step, ih (t + 1), List.range_succ_eq_map, List.map_cons,
        List.map_map]
      congr 1
      apply List.map_congr_left
      intro a _
      simp only [Function.comp_apply]
      have hnum : t + 1 + a = t + Nat.succ a := by omega
      rw [hnum]

/-- C7 (failing input evaluated, expected 10 files but only 7 ever present):
the wait intervals are exactly `1, 2, 4, 8, 16, 16, ...` (doubling from one
second, capped at sixteen), but there is no bounded total wait — the loop
polls forever, never exiting at any fuel. -/
theorem copy_wait_loop_unbounded :
    (∀ fuel, wait_loop (fun _ => 7) 10 fuel = none) ∧
      (∀ n, wait_sleeps (fun _ => 7) 10 n = wait_times n) := by
  constructor
  · intro fuel
    exact wait_loop_go_never_exits _ 10 (fun _ => by omega) fuel 1 0
  · intro n
    unfold wait_sleeps wait_times
    have h1 : (1 : Nat) = min (2 ^ 0) 16 := by norm_num
    rw [h1, wait_sleeps_go_pattern n 0]
    apply List.map_congr_left
    intro k _
    rw [Nat.zero_add]

/-- Because `_export_to_csv` and `_export_to_json` swallow their own
exceptions, one loop step never raises: it appends the format name exactly
when the format is enabled and has an export method. -/
theorem export_format_step_ok (csv_write json_write : Except Unit Unit)
    (attempted : List String) (fb : String × Bool) :
    export_format_step csv_write json_write attempted fb =
      Except.ok (attempted ++
        if fb.2 && (fb.1 == "csv" || fb.1 == "json") then [fb.1] else []) := by
  unfold export_format_step lookup_export_method export_method_swallow
  rcases fb with ⟨name, enabled⟩
  rcases enabled with _ | _
  · simp
  · by_cases hc : name = "csv"
    · subst hc
      cases csv_write <;> simp
    · by_cases hj : name = "json"
      · subst hj
        cases json_write <;> simp
      · simp [hc, hj]

/-- The whole format loop never raises, and the formats attempted are exactly
the enabled formats that have an export method, in order. -/
theorem export_formats_fold (csv_write json_write : Except Unit Unit) :
    ∀ (formats : List (String × Bool)) (acc : List String),
      formats.foldlM (export_format_step csv_write json_write) acc =
        Except.ok (acc ++ (formats.filter
          (fun fb => fb.2 && (fb.1 == "csv" || fb.1 == "json"))).map Prod.fst) := by
  intro formats
  induction formats with
  | nil =>
      intro acc
      simp only [List.foldlM_nil, List.filter_nil, List.map_nil, List.append_nil]
      rfl
  | cons fb rest ih =>
      intro acc
      rw [List.foldlM_cons, export_format_step_ok]
      simp only [bind, Except.bind]
      rw [ih]
      by_cases h : fb.2 && (fb.1 == "csv" || fb.1 == "json")
      · simp [List.filter_cons, h, List.append_assoc]
      · simp [List.filter_cons, h]

/-- C8: export-format failures are isolated per format — whatever the CSV and
JSON write outcomes (either may raise internally), both the CSV and the JSON
export of a group with rows are attempted, because each format method
swallows its own exceptions; while a group with no rows to pivot makes the
whole `_export_to_formats` call raise `ValueError` (fatal for that export
call only). -/
theorem export_format_isolation (formats : List (String × Bool))
    (csv_write json_write : Except Unit Unit)
    (results_data no_rows_data : List (String × Option (List (String × String))))
    (hrows : build_rows results_data ≠ [])
    (hempty : build_rows no_rows_data = [])
    (hcsv : ("csv", true) ∈ formats) (hjson : ("json", true) ∈ formats) :
    (∃ attempted,
      export_to_formats formats csv_write json_write results_data =
        Except.ok attempted ∧ "csv" ∈ attempted ∧ "json" ∈ attempted) ∧
      export_to_formats formats csv_write json_write no_rows_data =
        Except.error () := by
  constructor
  · unfold export_to_formats
    rw [if_neg (by simpa using hrows)]
    rw [export_formats_fold]
    refine ⟨_, rfl, ?_, ?_⟩
    · simp only [List.nil_append]
      exact List.mem_map.mpr ⟨("csv", true), List.mem_filter.mpr ⟨hcsv, by decide⟩, rfl⟩
    · simp only [List.nil_append]
      exact List.mem_map.mpr ⟨("json", true), List.mem_filter.mpr ⟨hjson, by decide⟩, rfl⟩
  · unfold export_to_formats
    rw [if_pos (by simpa using hempty)]

/-- Witness for C8: CSV write raising, JSON write succeeding, one group with
one row and one group with none. -/
theorem export_format_isolation_witness :
    (∃ attempted,
      export_to_formats [("csv", true), ("json", true), ("pdf", true)]
          (Except.error ()) (Except.ok ()) [("img1", some [("angle", "32")])] =
        Except.ok attempted ∧ "csv" ∈ attempted ∧ "json" ∈ attempted) ∧
      export_to_formats [("csv", true), ("json", true), ("pdf", true)]
          (Except.error ()) (Except.ok ()) [("img1", some [])] =
        Except.error () :=
  export_format_isolation [("csv", true), ("json", true), ("pdf", true)]
    (Except.error ()) (Except.ok ())
    [("img1", some [("angle", "32")])] [("img1", some [])]
    (by decide) (by decide) (by decide) (by decide)

/-- Membership after a Python dict assignment: any pair of
`insert_or_replace l k v` either has key `k` or was already in `l`. -/
theorem mem_insert_or_replace {l : List (String × α)} {k : String} {v : α}
    {p : String × α} (hp : p ∈ insert_or_replace l k v) : p.1 = k ∨ p ∈ l := by
  unfold insert_or_replace at hp
  split at hp
  · rcases List.mem_map.mp hp with ⟨q, hq, hfq⟩
    by_cases hqk : q.1 = k
    · left
      rw [← hfq, if_pos hqk, hqk]
    · right
      rw [← hfq, if_neg hqk]
      exact hq
  · rcases List.mem_append.mp hp with h | h
    · exact Or.inr h
    · left
      rw [List.mem_singleton.mp h]

/-- An image key present after `add_to_group` was either the image just
added or already present in some group. -/
theorem image_in_groups_add_to_group {acc : List (String × List (String × α))}
    {base i img : String} {d : α}
    (h : image_in_groups (add_to_group acc base i d) img) :
    img = i ∨ image_in_groups acc img := by
  rcases h with ⟨g, hg, p, hp, hpi⟩
  unfold add_to_group at hg
  split at hg
  · rcases List.mem_map.mp hg with ⟨g0, hg0, hfg⟩
    by_cases hb : g0.1 = base
    · rw [← hfg, if_pos hb] at hp
      rcases mem_insert_or_replace hp with h1 | h1
      · exact Or.inl (hpi ▸ h1.symm ▸ rfl)
      · exact Or.inr ⟨g0, hg0, p, h1, hpi⟩
    · rw [← hfg, if_neg hb] at hp
      exact Or.inr ⟨g0, hg0, p, hp, hpi⟩
  · rcases List.mem_append.mp hg with h1 | h1
    · exact Or.inr ⟨g, h1, p, hp, hpi⟩
    · rw [List.mem_singleton.mp h1] at hp
      simp only [List.mem_singleton] at hp
      left
      rw [← hpi, hp]

/-- An image whose name has too few tokens for the grouping position is never
placed in any group by the grouping fold. -/
theorem image_skipped_by_fold {position : Nat} {img : String}
    (hshort : (split_delimiters img).length ≤ position) :
    ∀ (entries : List (String × α)) (acc : List (String × List (String × α))),
      ¬ image_in_groups acc img →
      ¬ image_in_groups (entries.foldl (group_step position) acc) img := by
  intro entries
  induction entries with
  | nil => intro acc hacc; exact hacc
  | cons e rest ih =>
      intro acc hacc
      rw [List.foldl_cons]
      apply ih
      unfold group_step
      split
      · intro hin
        rcases image_in_groups_add_to_group hin with h1 | h1
        · subst h1
          omega
        · exact hacc h1
      · exact hacc

/-- C9: `load_export_separation` resolves the separating factor `"genotype"`
in the naming convention `"species_genotype_rep"` to the 1-based position 2;
grouping at the internal position `2 - 1` then places image `"A_G7_1.jpg"`
(tokens `A`, `G7`, `1.jpg`) in group `"G7"`; and any image whose name has
fewer tokens than the position is skipped from every group. -/
theorem export_separation_grouping :
    load_export_separation (some "genotype") (some "species_genotype_rep") =
      Except.ok (some 2) ∧
    (∀ (d : String), group_results_by_position [("A_G7_1.jpg", d)] (2 - 1) =
      [("G7", [("A_G7_1.jpg", d)])]) ∧
    (∀ (results_dict : List (String × String)) (position : Nat) (img : String),
      (split_delimiters img).length ≤ position →
      ¬ image_in_groups (group_results_by_position results_dict position) img) := by
  refine ⟨rfl, fun d => rfl, fun results_dict position img hshort => ?_⟩
  unfold group_results_by_position
  apply image_skipped_by_fold hshort
  rintro ⟨g, hg, -⟩
  exact absurd hg (List.not_mem_nil g)

/-- Witness for C9's skip clause: `"A_G7_1.jpg"` has three tokens, so with
position 5 it lands in no group. -/
theorem export_separation_grouping_witness :
    ¬ image_in_groups (group_results_by_position [("A_G7_1.jpg", "0.5")] 5)
      "A_G7_1.jpg" :=
  export_separation_grouping.2.2 [("A_G7_1.jpg", "0.5")] 5 "A_G7_1.jpg" (by decide)

/-- With nodup keys, `lookup_cell` finds a stored pair's value. -/
theorem lookup_cell_of_mem_nodup {row : List (String × String)} {c v : String}
    (hmem : (c, v) ∈ row) (hnodup : (row.map Prod.fst).Nodup) :
    lookup_cell row c = some v := by
  induction row with
  | nil => exact absurd hmem (List.not_mem_nil _)
  | cons p rest ih =>
      rcases List.mem_cons.mp hmem with h | h
      · rw [← h]
        unfold lookup_cell
        rw [if_pos rfl]
      · unfold lookup_cell
        rw [List.map_cons, List.nodup_cons] at hnodup
        have hne : p.1 ≠ c := by
          intro hpc
          exact hnodup.1 (hpc ▸ List.mem_map.mpr ⟨(c, v), h, rfl⟩)
        rw [if_neg hne]
        exact ih h hnodup.2

/-- Definitional equation of `lookup_cell` on a cons cell. -/
theorem lookup_cell_cons (q : String × String) (rest : List (String × String))
    (c : String) :
    lookup_cell (q :: rest) c = if q.1 = c then some q.2 else lookup_cell rest c := rfl

/-- Lookup in the `UPDATE`-mapped row: a hit is replaced by the new value, a
miss stays a miss. -/
theorem lookup_map_set (r : List (String × String)) (c v : String) :
    lookup_cell (r.map (fun p => if p.1 = c then (p.1, v) else p)) c =
      (lookup_cell r c).map (fun _ => v) := by
  induction r with
  | nil => rfl
  | cons q rest ih =>
      rw [List.map_cons]
      by_cases hq : q.1 = c
      · rw [if_pos hq]
        unfold lookup_cell
        rw [if_pos hq, if_pos hq]
        rfl
      · rw [if_neg hq]
        unfold lookup_cell
        rw [if_neg hq, if_neg hq]
        exact ih

/-- Lookup of a different column is unchanged by the `UPDATE` map. -/
theorem lookup_map_set_ne (r : List (String × String)) (c v : String)
    {c' : String} (hne : c' ≠ c) :
    lookup_cell (r.map (fun p => if p.1 = c then (p.1, v) else p)) c' =
      lookup_cell r c' := by
  induction r with
  | nil => rfl
  | cons q rest ih =>
      rw [List.map_cons]
      by_cases hq : q.1 = c
      · rw [if_pos hq]
        unfold lookup_cell
        have h1 : ¬ q.1 = c' := by rw [hq]; exact fun h => hne h.symm
        rw [if_neg h1, if_neg h1]
        exact ih
      · rw [if_neg hq]
        unfold lookup_cell
        by_cases hq' : q.1 = c'
        · rw [if_pos hq', if_pos hq']
        · rw [if_neg hq', if_neg hq']
          exact ih

/-- Lookup over an appended row list tries the left part first. -/
theorem lookup_cell_append (r l2 : List (String × String)) (c : String) :
    lookup_cell (r ++ l2) c = (lookup_cell r c).or (lookup_cell l2 c) := by
  induction r with
  | nil => rfl
  | cons q rest ih =>
      rw [List.cons_append, lookup_cell_cons, lookup_cell_cons]
      by_cases hq : q.1 = c
      · rw [if_pos hq, if_pos hq]
        rfl
      · rw [if_neg hq, if_neg hq]
        exact ih

/-- A row having no cell for column `c` looks up to `none`. -/
theorem lookup_cell_eq_none {r : List (String × String)} {c : String}
    (hkeys : ∀ p ∈ r, p.1 ≠ c) : lookup_cell r c = none := by
  induction r with
  | nil => rfl
  | cons q rest ih =>
      unfold lookup_cell
      rw [if_neg (hkeys q (List.mem_cons_self q rest))]
      exact ih (fun p hp => hkeys p (List.mem_cons_of_mem q hp))

/-- A row having some cell for column `c` looks up to a value. -/
theorem lookup_cell_isSome {r : List (String × String)} {c : String}
    {p : String × String} (hp : p ∈ r) (hpc : p.1 = c) :
    ∃ w, lookup_cell r c = some w := by
  induction r with
  | nil => exact absurd hp (List.not_mem_nil _)
  | cons q rest ih =>
      unfold lookup_cell
      by_cases hq : q.1 = c
      · exact ⟨q.2, if_pos hq⟩
      · rw [if_neg hq]
        rcases List.mem_cons.mp hp with h | h
        · exact absurd (h ▸ hpc) hq
        · exact ih h

/-- Setting a cell stores its value. -/
theorem lookup_set_cell_self (r : List (String × String)) (c v : String) :
    lookup_cell (set_cell r c v) c = some v := by
  unfold set_cell
  split
  · next hany =>
      rcases List.any_eq_true.mp hany with ⟨p, hp, hpc⟩
      simp only [decide_eq_true_eq] at hpc
      rcases lookup_cell_isSome hp hpc with ⟨w, hw⟩
      rw [lookup_map_set, hw]
      rfl
  · next hany =>
      have hkeys : ∀ p ∈ r, p.1 ≠ c := by
        intro p hp hpc
        exact hany (List.any_eq_true.mpr ⟨p, hp, decide_eq_true hpc⟩)
      rw [lookup_cell_append, lookup_cell_eq_none hkeys]
      simp [lookup_cell]

/-- Setting one cell leaves every other column's lookup unchanged. -/
theorem lookup_set_cell_ne (r : List (String × String)) {c : String}
    (v : String) {c' : String} (hne : c' ≠ c) :
    lookup_cell (set_cell r c v) c' = lookup_cell r c' := by
  unfold set_cell
  split
  · exact lookup_map_set_ne r c v hne
  · rw [lookup_cell_append]
    have h2 : lookup_cell [(c, v)] c' = none := by
      rw [lookup_cell_cons, if_neg (fun h => hne h.symm)]
      rfl
    rw [h2, Option.or_none]

/-- Folding `set_cell` over pairs whose keys all differ from `c` leaves the
lookup at `c` unchanged. -/
theorem lookup_fold_set_cell_no_key {l : List (String × String)}
    {c : String} (hkeys : ∀ p ∈ l, p.1 ≠ c) :
    ∀ r, lookup_cell (l.foldl (fun acc p => set_cell acc p.1 p.2) r) c =
      lookup_cell r c := by
  induction l with
  | nil => intro r; rfl
  | cons q rest ih =>
      intro r
      rw [List.foldl_cons]
      rw [ih (fun p hp => hkeys p (List.mem_cons_of_mem q hp))]
      exact lookup_set_cell_ne r q.2
        (fun h => hkeys q (List.mem_cons_self q rest) h.symm)

/-- Folding `set_cell` over pairs with nodup keys stores each pair's value. -/
theorem lookup_fold_set_cell_mem {l : List (String × String)}
    {c v : String} (hmem : (c, v) ∈ l) (hnodup : (l.map Prod.fst).Nodup) :
    ∀ r, lookup_cell (l.foldl (fun acc p => set_cell acc p.1 p.2) r) c =
      some v := by
  induction l with
  | nil => exact absurd hmem (List.not_mem_nil _)
  | cons q rest ih =>
      intro r
      rw [List.foldl_cons]
      rw [List.map_cons, List.nodup_cons] at hnodup
      rcases List.mem_cons.mp hmem with h | h
      · subst h
        rw [lookup_fold_set_cell_no_key
          (fun p hp hpc => hnodup.1 (List.mem_map.mpr ⟨p, hp, hpc⟩))]
        exact lookup_set_cell_self r c v
      · exact ih h hnodup.2 _

/-- `update_row` stores the DataFrame row's value for every non-`image`
column, provided the row's keys are unique (DataFrame columns are). -/
theorem lookup_update_row {r0 row : List (String × String)} {c v : String}
    (hc : c ≠ "image") (hmem : (c, v) ∈ row)
    (hnodup : (row.map Prod.fst).Nodup) :
    lookup_cell (update_row r0 row) c = some v := by
  unfold update_row
  apply lookup_fold_set_cell_mem
  · exact List.mem_filter.mpr ⟨hmem, by simpa using hc⟩
  · exact hnodup.sublist (List.Sublist.map Prod.fst (List.filter_sublist row))

/-- `update_row` never touches the `image` column. -/
theorem lookup_update_row_image (r0 row : List (String × String)) :
    lookup_cell (update_row r0 row) "image" = lookup_cell r0 "image" := by
  unfold update_row
  apply lookup_fold_set_cell_no_key
  intro p hp
  have := (List.mem_filter.mp hp).2
  simpa using this

/-- The `UPDATE` pass over the table rows changes no row's `image` value, so
the per-image row count is preserved. -/
theorem countP_update_map (rows : List (List (String × String)))
    (row : List (String × String)) (img : String) :
    ((rows.map (fun r =>
        if lookup_cell r "image" = some img then update_row r row else r)).countP
      (fun r => lookup_cell r "image" = some img)) =
    rows.countP (fun r => lookup_cell r "image" = some img) := by
  induction rows with
  | nil => rfl
  | cons r rest ih =>
      rw [List.map_cons, List.countP_cons, List.countP_cons, ih]
      congr 1
      by_cases h : lookup_cell r "image" = some img
      · rw [if_pos h]
        simp [lookup_update_row_image, h]
      · rw [if_neg h]

/-- `upsert_row`, with the condition on the concrete image key exposed. -/
theorem upsert_row_eq (t : DbTable) (row : List (String × String)) (img : String)
    (himg : lookup_cell row "image" = some img) :
    upsert_row t row =
      if (t.rows.any (fun r => lookup_cell r "image" = some img)) = true then
        ⟨t.cols, t.rows.map (fun r =>
          if lookup_cell r "image" = some img then update_row r row else r)⟩
      else ⟨t.cols, t.rows ++ [row]⟩ := by
  unfold upsert_row
  rw [himg]
  rfl

/-- C6: `export_connecteddb` first adds every DataFrame column missing from
the table, then upserts per image row: if a row with that image key exists
its non-key columns are updated, otherwise the row is inserted; starting from
a table with at most one row for the image, the export leaves exactly one row
for it, carrying the exported values. -/
theorem export_connecteddb_upsert (t : DbTable) (df_cols : List String)
    (row : List (String × String)) (img : String)
    (himg : lookup_cell row "image" = some img)
    (hnodup : (row.map Prod.fst).Nodup)
    (huniq : count_image_rows t img ≤ 1) :
    (∀ c ∈ df_cols, c ∈ (export_connecteddb t df_cols [row]).cols) ∧
      count_image_rows (export_connecteddb t df_cols [row]) img = 1 ∧
      (∀ c v, c ≠ "image" → (c, v) ∈ row →
        ∀ r ∈ (export_connecteddb t df_cols [row]).rows,
          lookup_cell r "image" = some img → lookup_cell r c = some v) := by
  have hexp : export_connecteddb t df_cols [row] =
      upsert_row (add_missing_columns t df_cols) row := rfl
  have ht0rows : (add_missing_columns t df_cols).rows = t.rows := rfl
  have ht0cols : (add_missing_columns t df_cols).cols =
      t.cols ++ df_cols.filter (fun c => !(t.cols.contains c)) := rfl
  rw [hexp, upsert_row_eq _ _ _ himg, ht0rows, ht0cols]
  by_cases hany : (t.rows.any (fun r => lookup_cell r "image" = some img)) = true
  · rw [if_pos hany]
    refine ⟨?_, ?_, ?_⟩
    · intro c hc
      by_cases hmem : c ∈ t.cols
      · exact List.mem_append.mpr (Or.inl hmem)
      · exact List.mem_append.mpr (Or.inr
          (List.mem_filter.mpr ⟨hc, by simpa using hmem⟩))
    · show (t.rows.map _).countP _ = 1
      rw [countP_update_map]
      have h1 : 0 < t.rows.countP (fun r => lookup_cell r "image" = some img) := by
        rcases List.any_eq_true.mp hany with ⟨r, hr, hpr⟩
        exact List.countP_pos_iff.mpr ⟨r, hr, hpr⟩
      have h2 : count_image_rows t img =
          t.rows.countP (fun r => lookup_cell r "image" = some img) := rfl
      omega
    · intro c v hc hmemrow r' hr' hrimg
      rcases List.mem_map.mp hr' with ⟨r0, hr0, hfr⟩
      by_cases h0 : lookup_cell r0 "image" = some img
      · rw [← hfr, if_pos h0]
        exact lookup_update_row hc hmemrow hnodup
      · rw [← hfr, if_neg h0] at hrimg
        exact absurd hrimg h0
  · rw [if_neg hany]
    refine ⟨?_, ?_, ?_⟩
    · intro c hc
      by_cases hmem : c ∈ t.cols
      · exact List.mem_append.mpr (Or.inl hmem)
      · exact List.mem_append.mpr (Or.inr
          (List.mem_filter.mpr ⟨hc, by simpa using hmem⟩))
    · show (t.rows ++ [row]).countP _ = 1
      rw [List.countP_append]
      have h0 : t.rows.countP (fun r => lookup_cell r "image" = some img) = 0 := by
        rw [List.countP_eq_zero]
        intro r hr hpr
        exact hany (List.any_eq_true.mpr ⟨r, hr, hpr⟩)
      rw [h0, List.countP_cons]
      simp [himg]
    · intro c v hc hmemrow r' hr' hrimg
      rcases List.mem_append.mp hr' with h | h
      · exact absurd (List.any_eq_true.mpr ⟨r', h, by simpa using hrimg⟩) hany
      · rw [List.mem_singleton.mp h]
        exact lookup_cell_of_mem_nodup hmemrow hnodup

/-- Witness for C6: exporting `img1` twice with different values for column
`m1` leaves exactly one `img1` row holding the latest value `0.5`. -/
theorem export_connecteddb_upsert_witness :
    (∀ c ∈ ["image", "m1"],
      c ∈ (export_connecteddb
        (export_connecteddb ⟨["image"], []⟩ ["image", "m1"]
          [[("image", "img1"), ("m1", "0.9")]])
        ["image", "m1"] [[("image", "img1"), ("m1", "0.5")]]).cols) ∧
      count_image_rows
        (export_connecteddb
          (export_connecteddb ⟨["image"], []⟩ ["image", "m1"]
            [[("image", "img1"), ("m1", "0.9")]])
          ["image", "m1"] [[("image", "img1"), ("m1", "0.5")]]) "img1" = 1 ∧
      (∀ c v, c ≠ "image" → (c, v) ∈ [("image", "img1"), ("m1", "0.5")] →
        ∀ r ∈ (export_connecteddb
          (export_connecteddb ⟨["image"], []⟩ ["image", "m1"]
            [[("image", "img1"), ("m1", "0.9")]])
          ["image", "m1"] [[("image", "img1"), ("m1", "0.5")]]).rows,
          lookup_cell r "image" = some "img1" → lookup_cell r c = some v) :=
  export_connecteddb_upsert
    (export_connecteddb ⟨["image"], []⟩ ["image", "m1"]
      [[("image", "img1"), ("m1", "0.9")]])
    ["image", "m1"] [("image", "img1"), ("m1", "0.5")] "img1"
    (by decide) (by decide) (by decide)
